import Mathlib

/-!
Verification of the `pgmspace.h` compatibility shim
(`src/AES-Hardware/Almost-finished/pgmspace.h`).

The header maps every AVR program-memory symbol to its ordinary-memory
equivalent: each `_P`-suffixed string/memory function forwards to the
corresponding libc function, each `pgm_read_*` accessor is a direct
dereference of its address argument, `PSTR` and `_SFR_BYTE` are identities,
and the `prog_*` typedefs alias the standard fixed-width integer types.

Embedding conventions:
* A byte of memory is a `Nat`, normalised modulo 256 on access.
* Flat memory is `Mem := Nat → Nat` (byte addressed).
* Buffers and C strings are `List Nat` (a C string is the byte list before
  the terminating NUL).
* Pointer-returning libc functions are modelled as returning `Option Nat`
  (an index into the argument buffer) or the suffix they point at.
* C scalar object types dereferenced by the accessors (`unsigned char`,
  `unsigned short`, `unsigned long`, `float`, `void *`) are represented by
  `CScalar`; their sizes are parameters of a `DataModel` record constrained
  only as the C standard constrains them (`sizeof(short) ≥ 2`,
  `sizeof(long) ≥ 4`).  A `float` read is modelled by its bit pattern.
-/

namespace Pgmspace

/-- Byte-addressed flat memory. -/
def Mem : Type := Nat → Nat

/-- Little-endian value of `n` bytes of memory starting at `addr`; each
cell is normalised to a byte. -/
def derefBytes (m : Mem) : Nat → Nat → Nat
  | _, 0 => 0
  | addr, n + 1 => m addr % 256 + 256 * derefBytes m (addr + 1) n

/-- The C scalar object types the `pgm_read_*` macros dereference. -/
inductive CScalar where
  | uchar
  | ushort
  | ulong
  | cfloat
  | voidptr
deriving DecidableEq, Repr

/-- Sizes (in bytes) of the non-fixed-width C scalar types on a target,
constrained as the C standard constrains a hosted implementation:
`char` is one byte, `short` is at least 16 bits, `long` at least 32. -/
structure DataModel where
  shortBytes : Nat
  longBytes : Nat
  floatBytes : Nat
  ptrBytes : Nat
  short_lb : 2 ≤ shortBytes
  long_lb : 4 ≤ longBytes
  float_pos : 0 < floatBytes
  ptr_pos : 0 < ptrBytes

/-- `sizeof` of each scalar type under a data model. -/
def sizeofBytes (dm : DataModel) : CScalar → Nat
  | CScalar.uchar => 1
  | CScalar.ushort => dm.shortBytes
  | CScalar.ulong => dm.longBytes
  | CScalar.cfloat => dm.floatBytes
  | CScalar.voidptr => dm.ptrBytes

/-- Reading an object of scalar type `t` at `addr` directly from ordinary
memory: the little-endian value of `sizeof t` bytes. -/
def readObject (dm : DataModel) (t : CScalar) (m : Mem) (addr : Nat) : Nat :=
  derefBytes m addr (sizeofBytes dm t)

/-! ### The `pgm_read_*` accessors (header lines 53–57)

Each macro is a direct dereference of its argument:
`pgm_read_byte(addr)` is `*(const unsigned char *)(addr)`, and so on. -/

def pgm_read_byte (dm : DataModel) (m : Mem) (addr : Nat) : Nat :=
  derefBytes m addr (sizeofBytes dm CScalar.uchar)

def pgm_read_word (dm : DataModel) (m : Mem) (addr : Nat) : Nat :=
  derefBytes m addr (sizeofBytes dm CScalar.ushort)

def pgm_read_dword (dm : DataModel) (m : Mem) (addr : Nat) : Nat :=
  derefBytes m addr (sizeofBytes dm CScalar.ulong)

def pgm_read_float (dm : DataModel) (m : Mem) (addr : Nat) : Nat :=
  derefBytes m addr (sizeofBytes dm CScalar.cfloat)

def pgm_read_ptr (dm : DataModel) (m : Mem) (addr : Nat) : Nat :=
  derefBytes m addr (sizeofBytes dm CScalar.voidptr)

/-! ### `_near` and `_far` variants (header lines 59–69)

Each variant macro expands to the base accessor applied to the same
address. -/

def pgm_read_byte_near (dm : DataModel) (m : Mem) (addr : Nat) : Nat :=
  pgm_read_byte dm m addr

def pgm_read_word_near (dm : DataModel) (m : Mem) (addr : Nat) : Nat :=
  pgm_read_word dm m addr

def pgm_read_dword_near (dm : DataModel) (m : Mem) (addr : Nat) : Nat :=
  pgm_read_dword dm m addr

def pgm_read_float_near (dm : DataModel) (m : Mem) (addr : Nat) : Nat :=
  pgm_read_float dm m addr

def pgm_read_ptr_near (dm : DataModel) (m : Mem) (addr : Nat) : Nat :=
  pgm_read_ptr dm m addr

def pgm_read_byte_far (dm : DataModel) (m : Mem) (addr : Nat) : Nat :=
  pgm_read_byte dm m addr

def pgm_read_word_far (dm : DataModel) (m : Mem) (addr : Nat) : Nat :=
  pgm_read_word dm m addr

def pgm_read_dword_far (dm : DataModel) (m : Mem) (addr : Nat) : Nat :=
  pgm_read_dword dm m addr

def pgm_read_float_far (dm : DataModel) (m : Mem) (addr : Nat) : Nat :=
  pgm_read_float dm m addr

def pgm_read_ptr_far (dm : DataModel) (m : Mem) (addr : Nat) : Nat :=
  pgm_read_ptr dm m addr

/-! ### `PSTR` and `_SFR_BYTE` (header lines 8 and 10)

`#define PSTR(str) (str)` and `#define _SFR_BYTE(n) (n)`. -/

def PSTR (str : List Nat) : List Nat := str

def _SFR_BYTE {α : Type} (n : α) : α := n

/-! ### `prog_*` integer typedefs (header lines 15–22)

A C integer type is characterised by its width in bits and signedness;
the `int8_t` … `uint64_t` forms are the standard `<inttypes.h>` types,
and each `prog_*` typedef aliases one of them. -/

structure CIntType where
  bits : Nat
  signed : Bool
deriving DecidableEq, Repr

def int8_t : CIntType := ⟨8, true⟩
def uint8_t : CIntType := ⟨8, false⟩
def int16_t : CIntType := ⟨16, true⟩
def uint16_t : CIntType := ⟨16, false⟩
def int32_t : CIntType := ⟨32, true⟩
def uint32_t : CIntType := ⟨32, false⟩
def int64_t : CIntType := ⟨64, true⟩
def uint64_t : CIntType := ⟨64, false⟩

def prog_int8_t : CIntType := int8_t
def prog_uint8_t : CIntType := uint8_t
def prog_int16_t : CIntType := int16_t
def prog_uint16_t : CIntType := uint16_t
def prog_int32_t : CIntType := int32_t
def prog_uint32_t : CIntType := uint32_t
def prog_int64_t : CIntType := int64_t
def prog_uint64_t : CIntType := uint64_t

/-! ### Models of the ordinary-memory libc functions

These model the external C library functions the `_P` macros forward to.
Buffers and C strings are `List Nat`; character arguments are normalised
modulo 256 (C converts them to `unsigned char`).  Pointer results are
indices (`Option Nat`) into the relevant argument, or the string value
pointed at. -/

/-- Normalise a byte and map an ASCII upper-case letter to lower case
(model of `tolower` as used by the case-insensitive comparisons). -/
def lowerByte (b : Nat) : Nat :=
  if 65 ≤ b % 256 ∧ b % 256 ≤ 90 then b % 256 + 32 else b % 256

/-- Is `x` (as a byte) one of the bytes of `l`? -/
def byteMem (l : List Nat) (x : Nat) : Bool :=
  l.any (fun y => y % 256 == x % 256)

def memchr (s : List Nat) (c : Nat) (len : Nat) : Option Nat :=
  (s.take len).findIdx? (fun b => b % 256 == c % 256)

def memcmp : List Nat → List Nat → Nat → Int
  | _, _, 0 => 0
  | a, b, n + 1 =>
    let x := a.headD 0 % 256
    let y := b.headD 0 % 256
    if x < y then -1 else if y < x then 1 else memcmp a.tail b.tail n

def memcpy (dest src : List Nat) (n : Nat) : List Nat :=
  src.take n ++ dest.drop n

def memmem (a : List Nat) (alen : Nat) (b : List Nat) (blen : Nat) :
    Option Nat :=
  let hay := a.take alen
  let nee := b.take blen
  (List.range (hay.length + 1)).find? (fun i => nee.isPrefixOf (hay.drop i))

def memrchr (s : List Nat) (val : Nat) (len : Nat) : Option Nat :=
  let pre := s.take len
  match pre.reverse.findIdx? (fun b => b % 256 == val % 256) with
  | none => none
  | some j => some (pre.length - 1 - j)

def strcat (dest src : List Nat) : List Nat := dest ++ src

def strchr (s : List Nat) (c : Nat) : Option Nat :=
  if c % 256 == 0 then some s.length
  else s.findIdx? (fun b => b % 256 == c % 256)

def strchrnul (s : List Nat) (c : Nat) : Nat :=
  if c % 256 == 0 then s.length
  else (s.findIdx? (fun b => b % 256 == c % 256)).getD s.length

def strcmp : List Nat → List Nat → Int
  | [], [] => 0
  | [], _ :: _ => -1
  | _ :: _, [] => 1
  | x :: xs, y :: ys =>
    if x % 256 < y % 256 then -1
    else if y % 256 < x % 256 then 1
    else strcmp xs ys

def strcpy (_dest src : List Nat) : List Nat := src

def strcasecmp (a b : List Nat) : Int :=
  strcmp (a.map lowerByte) (b.map lowerByte)

def strstr (a b : List Nat) : Option Nat :=
  (List.range (a.length + 1)).find? (fun i => b.isPrefixOf (a.drop i))

def strcasestr (a b : List Nat) : Option Nat :=
  strstr (a.map lowerByte) (b.map lowerByte)

def strcspn (a b : List Nat) : Nat :=
  (a.takeWhile (fun x => !byteMem b x)).length

def strspn (a b : List Nat) : Nat :=
  (a.takeWhile (fun x => byteMem b x)).length

def strlcat (dest src : List Nat) (n : Nat) : List Nat × Nat :=
  if n ≤ dest.length then (dest, n + src.length)
  else (dest ++ src.take (n - dest.length - 1), dest.length + src.length)

def strlcpy (dest src : List Nat) (n : Nat) : List Nat × Nat :=
  (if n = 0 then dest else src.take (n - 1), src.length)

def strlen (s : List Nat) : Nat := s.length

def strnlen (s : List Nat) (n : Nat) : Nat := min s.length n

def strncmp : List Nat → List Nat → Nat → Int
  | _, _, 0 => 0
  | [], [], _ + 1 => 0
  | [], _ :: _, _ + 1 => -1
  | _ :: _, [], _ + 1 => 1
  | x :: xs, y :: ys, n + 1 =>
    if x % 256 < y % 256 then -1
    else if y % 256 < x % 256 then 1
    else strncmp xs ys n

def strncasecmp (a b : List Nat) (n : Nat) : Int :=
  strncmp (a.map lowerByte) (b.map lowerByte) n

def strncat (a b : List Nat) (n : Nat) : List Nat := a ++ b.take n

def strncpy (a b : List Nat) (n : Nat) : List Nat :=
  b.take n ++ List.replicate (n - (b.take n).length) 0 ++ a.drop n

def strpbrk (a b : List Nat) : Option Nat :=
  a.findIdx? (fun x => byteMem b x)

def strrchr (s : List Nat) (c : Nat) : Option Nat :=
  if c % 256 == 0 then some s.length
  else
    match s.reverse.findIdx? (fun b => b % 256 == c % 256) with
    | none => none
    | some j => some (s.length - 1 - j)

def strsep (sp : Option (List Nat)) (delims : List Nat) :
    Option (List Nat) × Option (List Nat) :=
  match sp with
  | none => (none, none)
  | some s =>
    match s.findIdx? (fun x => byteMem delims x) with
    | none => (some s, none)
    | some i => (some (s.take i), some (s.drop (i + 1)))

/-- `strtok_r`: the reentrant tokenizer.  `s = some str` starts a new scan,
`s = none` continues from the saved position `save`.  Returns the token
(or `none` when the scan is exhausted) and the new saved position. -/
def strtok_r (s : Option (List Nat)) (delims : List Nat)
    (save : Option (List Nat)) : Option (List Nat) × Option (List Nat) :=
  let cur := match s with
    | some str => str
    | none => save.getD []
  let rest := cur.dropWhile (fun x => byteMem delims x)
  if rest.isEmpty then (none, some [])
  else
    match rest.findIdx? (fun x => byteMem delims x) with
    | none => (some rest, some [])
    | some i => (some (rest.take i), some (rest.drop (i + 1)))

/-- `strtok`: same algorithm as `strtok_r`, with the library's internal
static position made an explicit argument. -/
def strtok (s : Option (List Nat)) (delims : List Nat)
    (save : Option (List Nat)) : Option (List Nat) × Option (List Nat) :=
  strtok_r s delims save

/-! ### The `_P`-suffixed shims (header lines 24–51)

Each macro forwards its arguments unchanged to the ordinary-memory
function. -/

def memchr_P (str : List Nat) (c : Nat) (len : Nat) : Option Nat :=
  memchr str c len

def memcmp_P (a b : List Nat) (n : Nat) : Int := memcmp a b n

def memcpy_P (dest src : List Nat) (n : Nat) : List Nat := memcpy dest src n

def memmem_P (a : List Nat) (alen : Nat) (b : List Nat) (blen : Nat) :
    Option Nat :=
  memmem a alen b blen

def memrchr_P (str : List Nat) (val : Nat) (len : Nat) : Option Nat :=
  memrchr str val len

def strcat_P (dest src : List Nat) : List Nat := strcat dest src

def strchr_P (str : List Nat) (c : Nat) : Option Nat := strchr str c

def strchrnul_P (str : List Nat) (c : Nat) : Nat := strchrnul str c

def strcmp_P (a b : List Nat) : Int := strcmp a b

def strcpy_P (dest src : List Nat) : List Nat := strcpy dest src

def strcasecmp_P (a b : List Nat) : Int := strcasecmp a b

def strcasestr_P (a b : List Nat) : Option Nat := strcasestr a b

def strcspn_P (a b : List Nat) : Nat := strcspn a b

def strlcat_P (dest src : List Nat) (n : Nat) : List Nat × Nat :=
  strlcat dest src n

def strlcpy_P (dest src : List Nat) (n : Nat) : List Nat × Nat :=
  strlcpy dest src n

def strlen_P (s : List Nat) : Nat := strlen s

def strnlen_P (s : List Nat) (n : Nat) : Nat := strnlen s n

def strncmp_P (a b : List Nat) (n : Nat) : Int := strncmp a b n

def strncasecmp_P (a b : List Nat) (n : Nat) : Int := strncasecmp a b n

def strncat_P (a b : List Nat) (n : Nat) : List Nat := strncat a b n

def strncpy_P (a b : List Nat) (n : Nat) : List Nat := strncpy a b n

def strpbrk_P (a b : List Nat) : Option Nat := strpbrk a b

def strrchr_P (str : List Nat) (c : Nat) : Option Nat := strrchr str c

def strsep_P (sp : Option (List Nat)) (b : List Nat) :
    Option (List Nat) × Option (List Nat) :=
  strsep sp b

def strspn_P (a b : List Nat) : Nat := strspn a b

def strstr_P (a b : List Nat) : Option Nat := strstr a b

def strtok_P (s : Option (List Nat)) (d : List Nat)
    (save : Option (List Nat)) : Option (List Nat) × Option (List Nat) :=
  strtok s d save

def strtok_rP (s : Option (List Nat)) (d : List Nat)
    (p : Option (List Nat)) : Option (List Nat) × Option (List Nat) :=
  strtok_r s d p

/-! ### Include-guard model (header lines 1–2 and 71)

A translation unit's preprocessor state is the list of macro names
currently defined.  Processing a `#define` of an already-defined name is
recorded as a redefinition diagnostic.  Including the header tests the
guard `__PGMSPACE_H_` first (line 1) and, only when it is not yet
defined, defines the guard (line 2) and processes the body. -/

/-- The guard macro of the header. -/
def guardName : String := "__PGMSPACE_H_"

/-- All macro names the header body defines, in source order. -/
def headerDefNames : List String :=
  ["PROGMEM", "PGM_P", "PSTR", "_SFR_BYTE",
   "memchr_P", "memcmp_P", "memcpy_P", "memmem_P", "memrchr_P",
   "strcat_P", "strchr_P", "strchrnul_P", "strcmp_P", "strcpy_P",
   "strcasecmp_P", "strcasestr_P", "strcspn_P", "strlcat_P", "strlcpy_P",
   "strlen_P", "strnlen_P", "strncmp_P", "strncasecmp_P", "strncat_P",
   "strncpy_P", "strpbrk_P", "strrchr_P", "strsep_P", "strspn_P",
   "strstr_P", "strtok_P", "strtok_rP",
   "pgm_read_byte", "pgm_read_word", "pgm_read_dword", "pgm_read_float",
   "pgm_read_ptr",
   "pgm_read_byte_near", "pgm_read_word_near", "pgm_read_dword_near",
   "pgm_read_float_near", "pgm_read_ptr_near",
   "pgm_read_byte_far", "pgm_read_word_far", "pgm_read_dword_far",
   "pgm_read_float_far", "pgm_read_ptr_far"]

/-- Process a sequence of `#define` directives: returns the new state and
the names whose definition raised a redefinition diagnostic. -/
def processDefines : List String → List String → List String × List String
  | st, [] => (st, [])
  | st, n :: ns =>
    let diag := if n ∈ st then [n] else []
    let st1 := if n ∈ st then st else st ++ [n]
    let rest := processDefines st1 ns
    (rest.1, diag ++ rest.2)

/-- Including `pgmspace.h` once: if the guard is already defined the whole
body is skipped (no state change, no diagnostics); otherwise the guard and
the body's definitions are processed. -/
def includeHeader (st : List String) : List String × List String :=
  if guardName ∈ st then (st, [])
  else processDefines st (guardName :: headerDefNames)

/-! ### Expression-level model of the accessor bodies

A fragment of C expressions sufficient for the macro bodies on header
lines 53–69: integer literals, an `n`-byte load `*(T *)e`, and (to give
the frame property content) an `n`-byte store `*(T *)e1 = e2`.  The
accessor bodies contain only loads. -/

inductive CExpr where
  | lit : Nat → CExpr
  | load : Nat → CExpr → CExpr
  | store : Nat → CExpr → CExpr → CExpr

/-- Write the `n` low-order bytes of `v` at `addr` (little-endian). -/
def writeBytes (m : Mem) : Nat → Nat → Nat → Mem
  | _, 0, _ => m
  | addr, n + 1, v =>
    writeBytes (fun i => if i = addr then v % 256 else m i) (addr + 1) n
      (v / 256)

/-- Evaluate an expression in a memory, returning its value and the
resulting memory. -/
def evalExpr : CExpr → Mem → Nat × Mem
  | CExpr.lit n, m => (n, m)
  | CExpr.load w a, m =>
    let ra := evalExpr a m
    (derefBytes ra.2 ra.1 w, ra.2)
  | CExpr.store w a v, m =>
    let ra := evalExpr a m
    let rv := evalExpr v ra.2
    (rv.1, writeBytes rv.2 ra.1 w rv.1)

/-- The five accessor widths, named after the macro family. -/
inductive AccWidth where
  | rbyte
  | rword
  | rdword
  | rfloat
  | rptr
deriving DecidableEq, Repr

/-- The C scalar type each accessor macro casts its address to
(header lines 53–57). -/
def ctypeOf : AccWidth → CScalar
  | AccWidth.rbyte => CScalar.uchar
  | AccWidth.rword => CScalar.ushort
  | AccWidth.rdword => CScalar.ulong
  | AccWidth.rfloat => CScalar.cfloat
  | AccWidth.rptr => CScalar.voidptr

/-- The bit width each accessor reads under a data model. -/
def accessBits (dm : DataModel) (a : AccWidth) : Nat :=
  8 * sizeofBytes dm (ctypeOf a)

/-- The base, `_near` and `_far` spellings of an accessor. -/
inductive AccVariant where
  | base
  | near
  | far
deriving DecidableEq, Repr

/-- The expression an accessor macro (any variant) expands to at a literal
address: the `_near` and `_far` macros (lines 59–69) expand to the base
macro, whose body is a single load of the accessor's type at the address. -/
def accessorExpr (dm : DataModel) (a : AccWidth) (_v : AccVariant)
    (addr : Nat) : CExpr :=
  CExpr.load (sizeofBytes dm (ctypeOf a)) (CExpr.lit addr)

/-! ### Concrete data models used to discuss type widths -/

/-- The LP64 data model of mainstream 64-bit hosts: 16-bit `short`,
64-bit `long`, 32-bit `float`, 64-bit pointers. -/
def lp64 : DataModel :=
  ⟨2, 8, 4, 8, by decide, by decide, by decide, by decide⟩

/-- An ILP32-style data model (also the AVR sizes): 16-bit `short`,
32-bit `long`, 32-bit `float`, 32-bit pointers. -/
def ilp32 : DataModel :=
  ⟨2, 4, 4, 4, by decide, by decide, by decide, by decide⟩

/-! ### Helper lemmas -/

/-- A name already defined, or appearing among the directives to process,
is defined in the state `processDefines` produces. -/
theorem mem_processDefines_of (n : String) :
    ∀ (ns st : List String), n ∈ st ∨ n ∈ ns → n ∈ (processDefines st ns).1
  | [], _, Or.inl h => h
  | [], _, Or.inr h => absurd h (List.not_mem_nil n)
  | m :: ms, st, h =>
    mem_processDefines_of n ms (if m ∈ st then st else st ++ [m])
      (by rcases h with h | h
          · refine Or.inl ?_
            split
            · exact h
            · exact List.mem_append_left _ h
          · rcases List.mem_cons.mp h with rfl | h
            · refine Or.inl ?_
              split
              · assumption
              · exact List.mem_append_right _ (List.mem_singleton.mpr rfl)
            · exact Or.inr h)

/-- After any inclusion of the header, the guard macro is defined. -/
theorem guard_mem_includeHeader (st : List String) :
    guardName ∈ (includeHeader st).1 := by
  unfold includeHeader
  split
  · assumption
  · exact mem_processDefines_of guardName (guardName :: headerDefNames) st
      (Or.inr (List.mem_cons_self _ _))

/-- Including the header in a state where the guard is already defined
changes nothing and emits no diagnostics. -/
theorem includeHeader_of_guard (st : List String) (h : guardName ∈ st) :
    includeHeader st = (st, []) := by
  unfold includeHeader
  exact if_pos h

/-! ### Claim theorems -/

/-- C2: for every data model, memory and address, `pgm_read_byte` returns
exactly the byte stored at the address when read directly as ordinary
memory, and each of `pgm_read_word`, `pgm_read_dword`, `pgm_read_float`
and `pgm_read_ptr` returns exactly the value obtained by reading an object
of the corresponding C type at that same address from ordinary memory —
no address-space translation is performed. -/
theorem claim_C2_pgm_read_ordinary (dm : DataModel) (m : Mem) (addr : Nat) :
    pgm_read_byte dm m addr = m addr % 256 ∧
    pgm_read_byte dm m addr = readObject dm CScalar.uchar m addr ∧
    pgm_read_word dm m addr = readObject dm CScalar.ushort m addr ∧
    pgm_read_dword dm m addr = readObject dm CScalar.ulong m addr ∧
    pgm_read_float dm m addr = readObject dm CScalar.cfloat m addr ∧
    pgm_read_ptr dm m addr = readObject dm CScalar.voidptr m addr :=
  ⟨rfl, rfl, rfl, rfl, rfl, rfl⟩

/-- C4: for every width and every data model, memory and address, the
`_near` and `_far` accessor variants return exactly the value of the base
accessor at the same address. -/
theorem claim_C4_near_far_collapse (dm : DataModel) (m : Mem) (addr : Nat) :
    pgm_read_byte_near dm m addr = pgm_read_byte dm m addr ∧
    pgm_read_word_near dm m addr = pgm_read_word dm m addr ∧
    pgm_read_dword_near dm m addr = pgm_read_dword dm m addr ∧
    pgm_read_float_near dm m addr = pgm_read_float dm m addr ∧
    pgm_read_ptr_near dm m addr = pgm_read_ptr dm m addr ∧
    pgm_read_byte_far dm m addr = pgm_read_byte dm m addr ∧
    pgm_read_word_far dm m addr = pgm_read_word dm m addr ∧
    pgm_read_dword_far dm m addr = pgm_read_dword dm m addr ∧
    pgm_read_float_far dm m addr = pgm_read_float dm m addr ∧
    pgm_read_ptr_far dm m addr = pgm_read_ptr dm m addr :=
  ⟨rfl, rfl, rfl, rfl, rfl, rfl, rfl, rfl, rfl, rfl⟩

/-- C5: each `prog_*` fixed-width integer alias has exactly the width and
signedness of the standard fixed-width type it aliases, covering widths
8/16/32/64 bits, signed and unsigned. -/
theorem claim_C5_prog_int_aliases :
    prog_int8_t.bits = int8_t.bits ∧ prog_int8_t.signed = int8_t.signed ∧
    prog_uint8_t.bits = uint8_t.bits ∧
    prog_uint8_t.signed = uint8_t.signed ∧
    prog_int16_t.bits = int16_t.bits ∧
    prog_int16_t.signed = int16_t.signed ∧
    prog_uint16_t.bits = uint16_t.bits ∧
    prog_uint16_t.signed = uint16_t.signed ∧
    prog_int32_t.bits = int32_t.bits ∧
    prog_int32_t.signed = int32_t.signed ∧
    prog_uint32_t.bits = uint32_t.bits ∧
    prog_uint32_t.signed = uint32_t.signed ∧
    prog_int64_t.bits = int64_t.bits ∧
    prog_int64_t.signed = int64_t.signed ∧
    prog_uint64_t.bits = uint64_t.bits ∧
    prog_uint64_t.signed = uint64_t.signed ∧
    int8_t = CIntType.mk 8 true ∧ uint8_t = CIntType.mk 8 false ∧
    int16_t = CIntType.mk 16 true ∧ uint16_t = CIntType.mk 16 false ∧
    int32_t = CIntType.mk 32 true ∧ uint32_t = CIntType.mk 32 false ∧
    int64_t = CIntType.mk 64 true ∧ uint64_t = CIntType.mk 64 false :=
  ⟨rfl, rfl, rfl, rfl, rfl, rfl, rfl, rfl, rfl, rfl, rfl, rfl, rfl, rfl,
   rfl, rfl, rfl, rfl, rfl, rfl, rfl, rfl, rfl, rfl⟩

/-- C7: `PSTR` is the identity on its argument: for every string `str`,
`PSTR str` is `str` itself, unchanged. -/
theorem claim_C7_PSTR_identity (str : List Nat) : PSTR str = str := rfl

/-- C8: including the header a second time in any preprocessor state is a
no-op: the state is unchanged and no redefinition diagnostics are
produced, so two (or more) inclusions are equivalent to one. -/
theorem claim_C8_include_guard (st : List String) :
    includeHeader (includeHeader st).1 = ((includeHeader st).1, []) :=
  includeHeader_of_guard (includeHeader st).1 (guard_mem_includeHeader st)

/-- C9: `_SFR_BYTE` is defined by the header and is the identity: for
every argument `n`, `_SFR_BYTE n` equals `n`. -/
theorem claim_C9_SFR_BYTE_identity {α : Type} (n : α) : _SFR_BYTE n = n :=
  rfl

/-- C10: every `pgm_read_*` accessor — base, `_near` and `_far` variants —
is a pure read: evaluating its body leaves memory unchanged, its value is
exactly the bytes of its type's size at the given address, and evaluating
it again in the resulting (unchanged) memory yields the same value. -/
theorem claim_C10_accessors_pure (dm : DataModel) (a : AccWidth)
    (v : AccVariant) (m : Mem) (addr : Nat) :
    (evalExpr (accessorExpr dm a v addr) m).2 = m ∧
    (evalExpr (accessorExpr dm a v addr) m).1 =
      derefBytes m addr (sizeofBytes dm (ctypeOf a)) ∧
    (evalExpr (accessorExpr dm a v addr)
        ((evalExpr (accessorExpr dm a v addr) m).2)).1 =
      (evalExpr (accessorExpr dm a v addr) m).1 :=
  ⟨rfl, rfl, rfl⟩

/-- C1: every `_P`-suffixed string/memory shim forwards its arguments
unchanged and produces a result (return value and memory effect, as
modelled) identical to the corresponding ordinary-memory function applied
to the same arguments. -/
theorem claim_C1_P_forwarding :
    (∀ s c l, memchr_P s c l = memchr s c l) ∧
    (∀ a b n, memcmp_P a b n = memcmp a b n) ∧
    (∀ d s n, memcpy_P d s n = memcpy d s n) ∧
    (∀ a al b bl, memmem_P a al b bl = memmem a al b bl) ∧
    (∀ s v l, memrchr_P s v l = memrchr s v l) ∧
    (∀ d s, strcat_P d s = strcat d s) ∧
    (∀ s c, strchr_P s c = strchr s c) ∧
    (∀ s c, strchrnul_P s c = strchrnul s c) ∧
    (∀ a b, strcmp_P a b = strcmp a b) ∧
    (∀ d s, strcpy_P d s = strcpy d s) ∧
    (∀ a b, strcasecmp_P a b = strcasecmp a b) ∧
    (∀ a b, strcasestr_P a b = strcasestr a b) ∧
    (∀ a b, strcspn_P a b = strcspn a b) ∧
    (∀ d s n, strlcat_P d s n = strlcat d s n) ∧
    (∀ d s n, strlcpy_P d s n = strlcpy d s n) ∧
    (∀ s, strlen_P s = strlen s) ∧
    (∀ s n, strnlen_P s n = strnlen s n) ∧
    (∀ a b n, strncmp_P a b n = strncmp a b n) ∧
    (∀ a b n, strncasecmp_P a b n = strncasecmp a b n) ∧
    (∀ a b n, strncat_P a b n = strncat a b n) ∧
    (∀ a b n, strncpy_P a b n = strncpy a b n) ∧
    (∀ a b, strpbrk_P a b = strpbrk a b) ∧
    (∀ s c, strrchr_P s c = strrchr s c) ∧
    (∀ sp b, strsep_P sp b = strsep sp b) ∧
    (∀ a b, strspn_P a b = strspn a b) ∧
    (∀ a b, strstr_P a b = strstr a b) ∧
    (∀ s d p, strtok_P s d p = strtok s d p) ∧
    (∀ s d p, strtok_rP s d p = strtok_r s d p) :=
  ⟨fun _ _ _ => rfl, fun _ _ _ => rfl, fun _ _ _ => rfl,
   fun _ _ _ _ => rfl, fun _ _ _ => rfl, fun _ _ => rfl, fun _ _ => rfl,
   fun _ _ => rfl, fun _ _ => rfl, fun _ _ => rfl, fun _ _ => rfl,
   fun _ _ => rfl, fun _ _ => rfl, fun _ _ _ => rfl, fun _ _ _ => rfl,
   fun _ => rfl, fun _ _ => rfl, fun _ _ _ => rfl, fun _ _ _ => rfl,
   fun _ _ _ => rfl, fun _ _ _ => rfl, fun _ _ => rfl, fun _ _ => rfl,
   fun _ _ => rfl, fun _ _ => rfl, fun _ _ => rfl, fun _ _ _ => rfl,
   fun _ _ _ => rfl⟩

/-- C6: no operation the header defines has a runtime failure mode of its
own: every shimmed operation is extensionally equal to the ordinary-memory
construct it substitutes for (`_P` functions to their libc counterparts,
accessors to the ordinary typed read at the same address, `PSTR` and
`_SFR_BYTE` to the identity), so no validation, error result or failure
behavior is added anywhere. -/
theorem claim_C6_no_failure_mode :
    memchr_P = memchr ∧ memcmp_P = memcmp ∧ memcpy_P = memcpy ∧
    memmem_P = memmem ∧ memrchr_P = memrchr ∧ strcat_P = strcat ∧
    strchr_P = strchr ∧ strchrnul_P = strchrnul ∧ strcmp_P = strcmp ∧
    strcpy_P = strcpy ∧ strcasecmp_P = strcasecmp ∧
    strcasestr_P = strcasestr ∧ strcspn_P = strcspn ∧
    strlcat_P = strlcat ∧ strlcpy_P = strlcpy ∧ strlen_P = strlen ∧
    strnlen_P = strnlen ∧ strncmp_P = strncmp ∧
    strncasecmp_P = strncasecmp ∧ strncat_P = strncat ∧
    strncpy_P = strncpy ∧ strpbrk_P = strpbrk ∧ strrchr_P = strrchr ∧
    strsep_P = strsep ∧ strspn_P = strspn ∧ strstr_P = strstr ∧
    strtok_P = strtok ∧ strtok_rP = strtok_r ∧
    (∀ dm, pgm_read_byte dm = readObject dm CScalar.uchar) ∧
    (∀ dm, pgm_read_word dm = readObject dm CScalar.ushort) ∧
    (∀ dm, pgm_read_dword dm = readObject dm CScalar.ulong) ∧
    (∀ dm, pgm_read_float dm = readObject dm CScalar.cfloat) ∧
    (∀ dm, pgm_read_ptr dm = readObject dm CScalar.voidptr) ∧
    pgm_read_byte_near = pgm_read_byte ∧
    pgm_read_word_near = pgm_read_word ∧
    pgm_read_dword_near = pgm_read_dword ∧
    pgm_read_float_near = pgm_read_float ∧
    pgm_read_ptr_near = pgm_read_ptr ∧
    pgm_read_byte_far = pgm_read_byte ∧
    pgm_read_word_far = pgm_read_word ∧
    pgm_read_dword_far = pgm_read_dword ∧
    pgm_read_float_far = pgm_read_float ∧
    pgm_read_ptr_far = pgm_read_ptr ∧
    PSTR = (fun s => s) ∧
    (∀ (α : Type) (n : α), _SFR_BYTE n = n) :=
  ⟨rfl, rfl, rfl, rfl, rfl, rfl, rfl, rfl, rfl, rfl, rfl, rfl, rfl, rfl,
   rfl, rfl, rfl, rfl, rfl, rfl, rfl, rfl, rfl, rfl, rfl, rfl, rfl, rfl,
   fun _ => rfl, fun _ => rfl, fun _ => rfl, fun _ => rfl, fun _ => rfl,
   rfl, rfl, rfl, rfl, rfl, rfl, rfl, rfl, rfl, rfl, rfl,
   fun _ _ => rfl⟩

/-- C3 counterexample: the claim that every accessor dereferences a
fixed-width type — in particular that `pgm_read_dword` reads exactly a
32-bit unsigned value on every target — is false: the macro dereferences
`unsigned long`, so under the LP64 data model of mainstream 64-bit hosts
it reads 64 bits. -/
theorem claim_C3_counterexample :
    ¬ accessBits lp64 AccWidth.rdword = 32 := by decide

/-- C3 (amended): each accessor dereferences its address as a pointer to
the C type named in its macro (`unsigned char`, `unsigned short`,
`unsigned long`, `float`, `void *`).  `pgm_read_byte` reads exactly 8
bits; the other widths are those of the target data model: word reads at
least 16 bits and exactly 16 when `short` is two bytes, dword reads at
least 32 bits and exactly 32 only when `long` is four bytes (on LP64
hosts it reads 64), float reads the target's `float` size, and ptr reads
a pointer-sized value. -/
theorem claim_C3_amended (dm : DataModel) :
    accessBits dm AccWidth.rbyte = 8 ∧
    accessBits dm AccWidth.rword = 8 * dm.shortBytes ∧
    accessBits dm AccWidth.rdword = 8 * dm.longBytes ∧
    accessBits dm AccWidth.rfloat = 8 * dm.floatBytes ∧
    accessBits dm AccWidth.rptr = 8 * dm.ptrBytes ∧
    16 ≤ accessBits dm AccWidth.rword ∧
    32 ≤ accessBits dm AccWidth.rdword ∧
    (dm.shortBytes = 2 → accessBits dm AccWidth.rword = 16) ∧
    (dm.longBytes = 4 → accessBits dm AccWidth.rdword = 32) := by
  have hs := dm.short_lb
  have hl := dm.long_lb
  refine ⟨rfl, rfl, rfl, rfl, rfl, ?_, ?_, ?_, ?_⟩
  · show 16 ≤ 8 * dm.shortBytes
    omega
  · show 32 ≤ 8 * dm.longBytes
    omega
  · intro h
    show 8 * dm.shortBytes = 16
    omega
  · intro h
    show 8 * dm.longBytes = 32
    omega

/-- C3 witness: under the ILP32/AVR data model the amended claim yields
the originally intended exact widths for word and dword. -/
theorem claim_C3_amended_witness :
    accessBits ilp32 AccWidth.rword = 16 ∧
    accessBits ilp32 AccWidth.rdword = 32 :=
  ⟨(claim_C3_amended ilp32).2.2.2.2.2.2.2.1 rfl,
   (claim_C3_amended ilp32).2.2.2.2.2.2.2.2 rfl⟩

end Pgmspace
